import Mathlib

/-!
Verification of the policy-server core (`src/lib.rs`) against its
natural-language specification.

The Rust sources are embedded shallowly:

* machine data that the control flow never inspects (DER payloads of
  certificates and keys, compiled modules, kube client handles) is carried
  as `Nat`;
* calls into external libraries (`rustls`, `wasmtime`, `kube`, the sigstore
  TUF client, the OCI downloader) are oracle parameters: a record field per
  external call, holding the value the call would return;
* fallible Rust functions return `Except String α`, carrying the error
  message; a Rust `panic!`/`expect` is the `panicked` constructor of
  `Outcome`;
* `tracing` output (and the `eprintln!` lines emitted before tracing is up)
  is modelled as a list of `LogEntry` values threaded through each function.
-/

namespace PolicyServerSpec

/-- One log line emitted by the code paths modelled here, via `tracing`
(`warn!`, `info!`, `error!`) or `eprintln!`. Only the lines the embedded
paths emit are represented. -/
inductive LogEntry where
  | warnCannotParseCert (e : String)
  | infoIgnoringNonKeyItem
  | warnCannotParseClientCaCert (e : String)
  | infoLoadedClientCaCerts (added ignored : Nat)
  | warnCannotReadInotifyEvent (e : String)
  | infoCertModified
  | infoKeyModified
  | infoClientCertModified
  | infoReloadingCertificates
  | errorFailedToReloadCertificate (e : String)
  | warnCannotCreateTrustRoot (e : String)
  | eprintCannotConnectKube (e : String)
  | eprintContextAwareUnavailable
  | infoTimeoutEnabled (limit : Nat)
  | infoTimeoutDisabled
  deriving Repr, DecidableEq

/-- A PEM item yielded by `rustls_pemfile::read_all` on the key file.
The source matches `Item::Sec1Key`, `Item::Pkcs1Key` and `Item::Pkcs8Key`
and ignores every other item; the DER payload is abstracted as a `Nat`. -/
inductive Item where
  | sec1Key (der : Nat)
  | pkcs1Key (der : Nat)
  | pkcs8Key (der : Nat)
  | nonKey
  deriving Repr, DecidableEq

/-- The `rustls::ServerConfig` assembled by `build_tls_server_config`: the
certificate chain and private key handed to `with_single_cert`, and whether
a client-certificate verifier was installed (`with_client_cert_verifier`
versus `with_no_client_auth`). -/
structure ServerConfig where
  certChain : List Nat
  privateKey : Nat
  clientVerifier : Bool
  deriving Repr, DecidableEq

/-- Results of the rustls library calls made by `build_tls_server_config`.
These functions live outside the repository, so they are oracle parameters:
`privateKeyFrom` is `PrivateKeyDer::try_from`, `clientVerifierBuild` is
`WebPkiClientVerifier::builder(store).build()` on the parsed client-CA
certificates, `withSingleCert` is the acceptance check rustls performs on
the cert-chain/key pair, and `addParsable` returns the `(added, ignored)`
counters of `RootCertStore::add_parsable_certificates`. -/
structure RustlsEnv where
  privateKeyFrom : Nat → Except String Nat
  clientVerifierBuild : List Nat → Except String Unit
  withSingleCert : List Nat → Nat → Except String Unit
  addParsable : List Nat → Nat × Nat

/-- The PEM streams read from the configured TLS files. Each entry is the
parse result of one PEM block (`Except` mirrors the per-item `Result` of
`rustls_pemfile`). `clientCaItems` is `some` exactly when
`tls_config.client_ca_file` is configured. The streams stand for readers
that opened successfully; file-open failures are outside the claims. -/
structure TlsFiles where
  certItems : List (Except String Nat)
  keyItems : List (Except String Item)
  clientCaItems : Option (List (Except String Nat))

/-- The `filter_map` the source applies to `rustls_pemfile::certs` on the
server certificate file: an unparsable entry is logged with
`warn!("Cannot parse certificate: ...")` and skipped; parsable
certificates are kept in order. Returns the kept certificates and the log
lines emitted. -/
def filterCerts : List (Except String Nat) → List Nat × List LogEntry
  | [] => ([], [])
  | .error e :: rest =>
      let r := filterCerts rest
      (r.1, .warnCannotParseCert e :: r.2)
  | .ok c :: rest =>
      let r := filterCerts rest
      (c :: r.1, r.2)

/-- The `filter_map` the source applies to `rustls_pemfile::certs` on the
client-CA file: an unparsable entry is logged with
`warn!("Cannot parse client CA certificate: ...")` and then dropped by
`it.ok()`; parsable certificates are kept in order. -/
def filterClientCaCerts : List (Except String Nat) → List Nat × List LogEntry
  | [] => ([], [])
  | .error e :: rest =>
      let r := filterClientCaCerts rest
      (r.1, .warnCannotParseClientCaCert e :: r.2)
  | .ok c :: rest =>
      let r := filterClientCaCerts rest
      (c :: r.1, r.2)

/-- The `filter_map` the source applies to `rustls_pemfile::read_all` on the
key file: an entry whose parse failed is dropped silently (`i.ok()?`); a
Sec1/Pkcs1/Pkcs8 key contributes its DER bytes; any other item is logged
with `info!("Ignoring non-key item in key file")` and dropped. -/
def filterKeys : List (Except String Item) → List Nat × List LogEntry
  | [] => ([], [])
  | .error _ :: rest => filterKeys rest
  | .ok (.sec1Key d) :: rest =>
      let r := filterKeys rest
      (d :: r.1, r.2)
  | .ok (.pkcs1Key d) :: rest =>
      let r := filterKeys rest
      (d :: r.1, r.2)
  | .ok (.pkcs8Key d) :: rest =>
      let r := filterKeys rest
      (d :: r.1, r.2)
  | .ok .nonKey :: rest =>
      let r := filterKeys rest
      (r.1, .infoIgnoringNonKeyItem :: r.2)

/-- The certificate-count check of `build_tls_server_config`:
`if cert.len() > 1 { return Err(anyhow!("Multiple certificates provided in cert file")) }`. -/
def certCountCheck (cert : List Nat) : Except String Unit :=
  if cert.length > 1 then .error "Multiple certificates provided in cert file" else .ok ()

/-- `build_tls_server_config` (src/lib.rs): parse the server certificates
(unparsable entries skipped with a warning), reject more than one
certificate; parse the keys, reject zero or more than one key; convert the
remaining key with `PrivateKeyDer::try_from` (`key_vec.pop()` takes the
last, hence only, element); then build the `ServerConfig`, installing a
client-certificate verifier exactly when a client-CA file is configured.
Returns the result together with the log lines emitted. -/
def build_tls_server_config (env : RustlsEnv) (files : TlsFiles) :
    Except String ServerConfig × List LogEntry :=
  let certRes := filterCerts files.certItems
  let cert := certRes.1
  match certCountCheck cert with
  | .error e => (.error e, certRes.2)
  | .ok () =>
    let keyRes := filterKeys files.keyItems
    let key_vec := keyRes.1
    let log := certRes.2 ++ keyRes.2
    if key_vec.isEmpty then (.error "No key provided in key file", log)
    else if key_vec.length > 1 then (.error "Multiple keys provided in key file", log)
    else
      match env.privateKeyFrom (key_vec.getLastD 0) with
      | .error e => (.error ("Cannot parse server key: " ++ e), log)
      | .ok key =>
        match files.clientCaItems with
        | some items =>
          let caRes := filterClientCaCerts items
          let counts := env.addParsable caRes.1
          let log :=
            log ++ caRes.2 ++ [.infoLoadedClientCaCerts counts.1 counts.2]
          match env.clientVerifierBuild caRes.1 with
          | .error e => (.error e, log)
          | .ok () =>
            match env.withSingleCert cert key with
            | .error e => (.error e, log)
            | .ok () => (.ok ⟨cert, key, true⟩, log)
        | none =>
          match env.withSingleCert cert key with
          | .error e => (.error e, log)
          | .ok () => (.ok ⟨cert, key, false⟩, log)

/-- The watch descriptor an inotify event carries: one of the three watches
registered by `create_tls_config_and_watch_certificate_changes` (the
client-CA watch exists only when a client-CA file is configured). -/
inductive WatchId where
  | cert
  | key
  | clientCa
  deriving Repr, DecidableEq

/-- One item of the inotify event stream: either an event carrying a watch
descriptor, or a stream error (`Err` from `stream.next()`), which the task
logs and skips. -/
inductive InotifyEvent where
  | evt (wd : WatchId)
  | evtError (e : String)
  deriving Repr, DecidableEq

/-- The mutable state of the watcher task spawned by
`create_tls_config_and_watch_certificate_changes`: the three dirty flags
(`cert_changed`, `key_changed`, `client_cert_changed`), the `ServerConfig`
currently held by the shared `RustlsConfig` (`reloadable_rust_config`), the
number of rebuilds attempted so far (instrumentation used to index the
rebuild oracle; the source keeps no such counter), and the log. -/
structure WatcherState where
  cert_changed : Bool
  key_changed : Bool
  client_cert_changed : Bool
  active : ServerConfig
  rebuilds : Nat
  log : List LogEntry
  deriving Repr, DecidableEq

/-- Oracle for the rebuild performed inside the watcher loop:
`build_tls_server_config(&tls_config).await` re-reads the files on disk at
each attempt, so its outcome is indexed by the number of rebuilds already
attempted. -/
structure WatchEnv where
  buildAt : Nat → Except String ServerConfig

/-- Flag update performed by the three `if` statements at the top of the
watcher loop body: the event's watch descriptor is compared against
`cert_watch`, `key_watch` and (when present) `client_cert_watch`, and the
matching dirty flag is set, with an `info!` line. When no client-CA watch
was registered (`hasClientWatch = false`) a `clientCa` descriptor matches
nothing. -/
def applyEventFlags (hasClientWatch : Bool) (s : WatcherState) : WatchId → WatcherState
  | .cert => { s with cert_changed := true, log := .infoCertModified :: s.log }
  | .key => { s with key_changed := true, log := .infoKeyModified :: s.log }
  | .clientCa =>
      if hasClientWatch then
        { s with client_cert_changed := true, log := .infoClientCertModified :: s.log }
      else s

/-- The rebuild trigger of the watcher loop:
`(key_changed && cert_changed) || (client_cert_changed && (key_changed == cert_changed))`. -/
def reloadCondition (cert_changed key_changed client_cert_changed : Bool) : Bool :=
  (key_changed && cert_changed) || (client_cert_changed && (key_changed == cert_changed))

/-- One iteration of the watcher loop body on one stream item: a stream
error is logged and skipped; an event sets its dirty flag; if the reload
condition then holds, the three flags are cleared, a rebuild is attempted,
and on success the active config is swapped while on failure an `error!`
line is logged and the previous config is retained. -/
def watchStep (env : WatchEnv) (hasClientWatch : Bool) (s : WatcherState) :
    InotifyEvent → WatcherState
  | .evtError e => { s with log := .warnCannotReadInotifyEvent e :: s.log }
  | .evt wd =>
    let s1 := applyEventFlags hasClientWatch s wd
    if reloadCondition s1.cert_changed s1.key_changed s1.client_cert_changed then
      let s2 : WatcherState :=
        { s1 with
          cert_changed := false
          key_changed := false
          client_cert_changed := false
          rebuilds := s1.rebuilds + 1
          log := .infoReloadingCertificates :: s1.log }
      match env.buildAt s1.rebuilds with
      | .error e => { s2 with log := .errorFailedToReloadCertificate e :: s2.log }
      | .ok cfg => { s2 with active := cfg }
    else s1

/-- The watcher task processing a whole sequence of stream items. -/
def watchEvents (env : WatchEnv) (hasClientWatch : Bool) (s : WatcherState)
    (events : List InotifyEvent) : WatcherState :=
  events.foldl (watchStep env hasClientWatch) s

/-- Result of a Rust computation that can also abort the task: `ok`, an
`Err` return carrying the error message, or a `panic!`/`expect` with its
message. -/
inductive Outcome (α : Type) where
  | ok (a : α)
  | err (e : String)
  | panicked (msg : String)
  deriving Repr, DecidableEq

/-- The `ManualTrustRoot` assembled by `create_sigstore_trustroot`: Fulcio
certificates and Rekor keys, abstracted as `Nat` handles. -/
structure TrustRoot where
  fulcio_certs : List Nat
  rekor_keys : List Nat
  deriving Repr, DecidableEq

/-- The TUF repository returned by `SigstoreTrustRoot::new`, with the
results of its `fulcio_certs()` and `rekor_keys()` accessors. -/
structure TufRepo where
  fulcioCerts : Except String (List Nat)
  rekorKeys : Except String (List Nat)

/-- Oracle for the filesystem and network calls of
`create_sigstore_trustroot`: whether `sigstore_cache_dir` is missing, the
result of `fs::create_dir_all`, and the result of
`SigstoreTrustRoot::new`. -/
structure TrustRootEnv where
  cacheDirMissing : Bool
  createDirAll : Except String Unit
  tufNew : Except String TufRepo

/-- `create_sigstore_trustroot` (src/lib.rs): create the cache directory if
missing (an `Err` return on failure), build the TUF repository (`?`
propagates its error), then extract the Fulcio certificates and Rekor keys
with `.expect(...)`, which panics on failure. -/
def create_sigstore_trustroot (env : TrustRootEnv) : Outcome TrustRoot :=
  match (if env.cacheDirMissing then env.createDirAll else .ok ()) with
  | .error e => .err ("Cannot create directory to cache sigstore data: " ++ e)
  | .ok () =>
    match env.tufNew with
    | .error e => .err e
    | .ok repo =>
      match repo.fulcioCerts with
      | .error _ => .panicked "Cannot fetch Fulcio certificates from TUF repository"
      | .ok certs =>
        match repo.rekorKeys with
        | .error _ => .panicked "Cannot fetch Rekor keys from TUF repository"
        | .ok keys => .ok { fulcio_certs := certs, rekor_keys := keys }

/-- `config::TlsConfig` (the `config` module is declared in `lib.rs`; its
fields are fixed by their uses in `lib.rs` and the integration tests). -/
structure TlsConfig where
  cert_file : String
  key_file : String
  client_ca_file : Option String
  deriving Repr, DecidableEq

/-- The fields of `config::Config` consumed by `PolicyServer::new_from_config`
(the `config` module itself is outside `src/`; the field set is fixed by its
uses in `lib.rs`). -/
structure Config where
  pool_size : Nat
  policy_evaluation_limit_seconds : Option Nat
  continue_on_errors : Bool
  ignore_kubernetes_connection_failure : Bool
  always_accept_admission_reviews_on_namespace : Option String
  tls_config : Option TlsConfig
  enable_pprof : Bool
  deriving Repr, DecidableEq

/-- The map URL → fetch result returned by `download_policies`
(`FetchedPolicies`), as an association list; fetched artifacts are `Nat`
handles. -/
abbrev FetchedPolicies := List (String × Except String Nat)

/-- The map URL → compile result produced by `precompile_policies`
(`PrecompiledPolicies`); precompiled modules are `Nat` handles. -/
abbrev PrecompiledPolicies := List (String × Except String Nat)

/-- `precompile_policies` (src/lib.rs): for each fetched policy, a
successful fetch is compiled (`PrecompiledPolicy::new`, the `compile`
oracle), while a failed fetch maps to `Err(anyhow!(error.to_string()))` —
the same message. The rayon `par_iter().collect()` into a `HashMap` is
embedded as `map`; order independence is proved separately. -/
def precompile_policies (compile : Nat → Except String Nat)
    (fetched_policies : FetchedPolicies) : PrecompiledPolicies :=
  fetched_policies.map fun p =>
    match p.2 with
    | .ok policy => (p.1, compile policy)
    | .error e => (p.1, .error e)

/-- The first error in the precompiled-policies map, in iteration order:
the `for result in precompiled_policies.values()` loop returns at the first
`Err`. -/
def firstError : PrecompiledPolicies → Option String
  | [] => none
  | (_, .error e) :: _ => some e
  | (_, .ok _) :: rest => firstError rest

/-- Oracle for every external call `PolicyServer::new_from_config` makes,
in source order: the trust-root environment, `kube::Client::try_default`,
`CallbackHandlerBuilder::build`, `Downloader::new`, the fetched policies
returned by `download_policies`, `wasmtime::Engine::new`,
`PrecompiledPolicy::new` against that engine (`compile`),
`EvaluationEnvironmentBuilder::build`,
`create_tls_config_and_watch_certificate_changes`, and
`activate_memory_profiling`. -/
structure BootEnv where
  trustRootEnv : TrustRootEnv
  kubeClient : Except String Nat
  callbackBuild : Except String Unit
  downloaderNew : Except String Unit
  fetched : FetchedPolicies
  engineNew : Except String Unit
  compile : Nat → Except String Nat
  evalEnvBuild : Except String Unit
  tlsSetup : Except String Unit
  pprofActivate : Except String Unit

/-- The observable result of a successful `PolicyServer::new_from_config`:
the trust root kept (`None` when its creation failed non-fatally), whether
a kube client was wired into the callback builder, whether
`wasmtime_config.epoch_interruption(true)` was called, whether the epoch
ticker task was spawned, the precompiled-policies map, the capacity the
`Semaphore` was created with, whether a TLS config was installed, and
whether the pprof routes were added. -/
structure PolicyServerModel where
  sigstore_trust_root : Option TrustRoot
  kube_client_wired : Bool
  epoch_interruption : Bool
  ticker_spawned : Bool
  precompiled_policies : PrecompiledPolicies
  semaphore_capacity : Nat
  tls_enabled : Bool
  pprof_routes : Bool
  deriving Repr

/-- Final stage of `new_from_config`: pprof activation and construction of
the returned `PolicyServer` value. -/
def bootFinish (env : BootEnv) (cfg : Config) (tr : Option TrustRoot)
    (kubeWired epochInt tickerSpawned : Bool) (precompiled : PrecompiledPolicies)
    (tlsEnabled : Bool) (log : List LogEntry) :
    Outcome PolicyServerModel × List LogEntry :=
  if cfg.enable_pprof then
    match env.pprofActivate with
    | .error e => (.err e, log)
    | .ok () =>
      (.ok
        { sigstore_trust_root := tr
          kube_client_wired := kubeWired
          epoch_interruption := epochInt
          ticker_spawned := tickerSpawned
          precompiled_policies := precompiled
          semaphore_capacity := cfg.pool_size
          tls_enabled := tlsEnabled
          pprof_routes := true }, log)
  else
    (.ok
      { sigstore_trust_root := tr
        kube_client_wired := kubeWired
        epoch_interruption := epochInt
        ticker_spawned := tickerSpawned
        precompiled_policies := precompiled
        semaphore_capacity := cfg.pool_size
        tls_enabled := tlsEnabled
        pprof_routes := false }, log)

/-- TLS stage of `new_from_config`: when `config.tls_config` is set, run
`create_tls_config_and_watch_certificate_changes` (`?` propagates its
error); otherwise no TLS config is installed. -/
def bootTls (env : BootEnv) (cfg : Config) (tr : Option TrustRoot)
    (kubeWired epochInt tickerSpawned : Bool) (precompiled : PrecompiledPolicies)
    (log : List LogEntry) : Outcome PolicyServerModel × List LogEntry :=
  match cfg.tls_config with
  | some _ =>
    match env.tlsSetup with
    | .error e => (.err e, log)
    | .ok () =>
      bootFinish env cfg tr kubeWired epochInt tickerSpawned precompiled true log
  | none =>
    bootFinish env cfg tr kubeWired epochInt tickerSpawned precompiled false log

/-- Stage of `new_from_config` after the precompile-error gate: build the
evaluation environment, spawn the epoch ticker exactly when
`policy_evaluation_limit_seconds` is set (with the corresponding `info!`
line), create the `ApiServerState` semaphore with capacity `pool_size`,
then the TLS stage. -/
def bootAfterPrecompile (env : BootEnv) (cfg : Config) (tr : Option TrustRoot)
    (kubeWired epochInt : Bool) (precompiled : PrecompiledPolicies)
    (log : List LogEntry) : Outcome PolicyServerModel × List LogEntry :=
  match env.evalEnvBuild with
  | .error e => (.err e, log)
  | .ok () =>
    match cfg.policy_evaluation_limit_seconds with
    | some limit =>
      bootTls env cfg tr kubeWired epochInt true precompiled
        (log ++ [.infoTimeoutEnabled limit])
    | none =>
      bootTls env cfg tr kubeWired epochInt false precompiled
        (log ++ [.infoTimeoutDisabled])

/-- Stage of `new_from_config` after the kube-client decision: build the
callback handler and the downloader, download the policies, configure the
wasmtime engine (`epoch_interruption(true)` exactly when
`policy_evaluation_limit_seconds` is set), precompile the policies, and —
when `continue_on_errors` is false — return the first compile/fetch error. -/
def bootAfterKube (env : BootEnv) (cfg : Config) (tr : Option TrustRoot)
    (kubeWired : Bool) (log : List LogEntry) :
    Outcome PolicyServerModel × List LogEntry :=
  match env.callbackBuild with
  | .error e => (.err e, log)
  | .ok () =>
    match env.downloaderNew with
    | .error e => (.err e, log)
    | .ok () =>
      match env.engineNew with
      | .error e => (.err e, log)
      | .ok () =>
        if cfg.continue_on_errors then
          bootAfterPrecompile env cfg tr kubeWired
            cfg.policy_evaluation_limit_seconds.isSome
            (precompile_policies env.compile env.fetched) log
        else
          match firstError (precompile_policies env.compile env.fetched) with
          | some m => (.err m, log)
          | none =>
            bootAfterPrecompile env cfg tr kubeWired
              cfg.policy_evaluation_limit_seconds.isSome
              (precompile_policies env.compile env.fetched) log

/-- Stage of `new_from_config` after the trust root: try to create a kube
client; on failure, either proceed without one
(`ignore_kubernetes_connection_failure`) or return an error. -/
def bootAfterTrust (env : BootEnv) (cfg : Config) (tr : Option TrustRoot)
    (log : List LogEntry) : Outcome PolicyServerModel × List LogEntry :=
  match env.kubeClient with
  | .ok _ => bootAfterKube env cfg tr true log
  | .error e =>
    if cfg.ignore_kubernetes_connection_failure then
      bootAfterKube env cfg tr false
        (log ++ [.eprintCannotConnectKube e] ++ [.eprintContextAwareUnavailable])
    else
      (.err "Cannot connect to Kubernetes, context aware policies would not work properly",
        log ++ [.eprintCannotConnectKube e])

/-- `PolicyServer::new_from_config` (src/lib.rs): materialise the sigstore
trust root (a panic propagates; an error is logged as a warning and the
trust root is `None`), then run the remaining boot pipeline. -/
def new_from_config (env : BootEnv) (cfg : Config) :
    Outcome PolicyServerModel × List LogEntry :=
  match create_sigstore_trustroot env.trustRootEnv with
  | .panicked m => (.panicked m, [])
  | .err e => bootAfterTrust env cfg none [.warnCannotCreateTrustRoot e]
  | .ok tr => bootAfterTrust env cfg (some tr) []

/-- A socket-binding effect of `PolicyServer::run`. -/
inductive Effect where
  | bindMainListener
  | bindReadinessListener
  deriving Repr, DecidableEq

/-- `main` (src/main.rs) restricted to its socket effects: bind the two
listeners (`PolicyServer::run`) only when `new_from_config` returned `Ok`;
a boot error propagates with `?` before any `bind` runs. -/
def main_serve (env : BootEnv) (cfg : Config) :
    Outcome PolicyServerModel × List LogEntry × List Effect :=
  match new_from_config env cfg with
  | (.ok s, log) => (.ok s, log, [.bindMainListener, .bindReadinessListener])
  | (r, log) => (r, log, [])

/-- The wasmtime engine's epoch counter after `ticks` elapsed seconds: the
spawned ticker task calls `engine.increment_epoch()` once per second and is
the only caller, so when no ticker was spawned the counter never moves. -/
def engineEpoch (s : PolicyServerModel) (ticks : Nat) : Nat :=
  if s.ticker_spawned then ticks else 0

/-- Modelled from the spec: the admission handlers live in the `api` module,
which is declared in `lib.rs` but not present under `src/`; per the spec, a
process-wide counting semaphore of capacity `pool_size` is acquired before
entering an evaluation and released on any exit, and an overloaded caller
waits. `available` is the semaphore's free permits, `evaluating` the
evaluations currently holding a permit. -/
structure SemState where
  available : Nat
  evaluating : Nat
  deriving Repr, DecidableEq

/-- Modelled from the spec: a handler either acquires a permit (entering an
evaluation) or releases the one it holds (any exit path). -/
inductive SemEvent where
  | acquire
  | release
  deriving Repr, DecidableEq

/-- Modelled from the spec: semaphore transition. An acquire with no free
permit leaves the state unchanged — the caller waits; a release returns the
permit. -/
def semStep (s : SemState) : SemEvent → SemState
  | .acquire =>
      if 0 < s.available then
        { available := s.available - 1, evaluating := s.evaluating + 1 }
      else s
  | .release =>
      if 0 < s.evaluating then
        { available := s.available + 1, evaluating := s.evaluating - 1 }
      else s

/-- The semaphore as created in `new_from_config`:
`Semaphore::new(config.pool_size)`, no evaluation in flight. -/
def semInit (capacity : Nat) : SemState :=
  { available := capacity, evaluating := 0 }

/-- The semaphore state after a sequence of acquire/release events. -/
def semRun (capacity : Nat) (events : List SemEvent) : SemState :=
  events.foldl semStep (semInit capacity)

/-- Every external call made after the kube-client decision succeeds (and,
when `continue_on_errors` is false, no precompiled policy is an error):
under this assumption the rest of the boot pipeline cannot fail. -/
def bootPipelineOkAfterKube (env : BootEnv) (cfg : Config) : Prop :=
  env.callbackBuild = .ok () ∧ env.downloaderNew = .ok () ∧ env.engineNew = .ok () ∧
    (cfg.continue_on_errors = true ∨
      firstError (precompile_policies env.compile env.fetched) = none) ∧
    env.evalEnvBuild = .ok () ∧
    (cfg.tls_config.isSome = true → env.tlsSetup = .ok ()) ∧
    (cfg.enable_pprof = true → env.pprofActivate = .ok ())

/-- The kube-client decision does not abort the boot: either the client was
created, or connection failures are ignored by configuration. -/
def bootKubeOk (env : BootEnv) (cfg : Config) : Prop :=
  (∃ c, env.kubeClient = .ok c) ∨ cfg.ignore_kubernetes_connection_failure = true

/-- A trust-root environment in which every external call succeeds. -/
def sampleTrustEnv : TrustRootEnv :=
  { cacheDirMissing := false
    createDirAll := .ok ()
    tufNew := .ok { fulcioCerts := .ok [], rekorKeys := .ok [] } }

/-- A boot environment in which every external call succeeds and one policy
was fetched successfully. -/
def sampleBootEnv : BootEnv :=
  { trustRootEnv := sampleTrustEnv
    kubeClient := .ok 0
    callbackBuild := .ok ()
    downloaderNew := .ok ()
    fetched := [("registry://p", .ok 2)]
    engineNew := .ok ()
    compile := fun n => .ok n
    evalEnvBuild := .ok ()
    tlsSetup := .ok ()
    pprofActivate := .ok () }

/-- A boot environment whose kube-client creation fails, everything else
succeeding. -/
def sampleBootEnvKubeErr : BootEnv :=
  { sampleBootEnv with kubeClient := .error "no cluster" }

/-- A boot environment in which one policy failed to fetch. -/
def sampleBootEnvFetchErr : BootEnv :=
  { sampleBootEnv with fetched := [("registry://p", .error "pull failed")] }

/-- A minimal configuration: pool of 4, no evaluation limit, tolerant of
kube connection failures. -/
def sampleConfig : Config :=
  { pool_size := 4
    policy_evaluation_limit_seconds := none
    continue_on_errors := true
    ignore_kubernetes_connection_failure := true
    always_accept_admission_reviews_on_namespace := none
    tls_config := none
    enable_pprof := false }

/-- `sampleConfig` with `continue_on_errors` disabled. -/
def sampleConfigStrict : Config :=
  { sampleConfig with continue_on_errors := false }

/-- The server `new_from_config` builds from `sampleBootEnv` and
`sampleConfig`. -/
def sampleServer : PolicyServerModel :=
  { sigstore_trust_root := some { fulcio_certs := [], rekor_keys := [] }
    kube_client_wired := true
    epoch_interruption := false
    ticker_spawned := false
    precompiled_policies := [("registry://p", .ok 2)]
    semaphore_capacity := 4
    tls_enabled := false
    pprof_routes := false }

/-! Lemmas about `build_tls_server_config`. -/

lemma build_tls_err_many_certs (env : RustlsEnv) (files : TlsFiles)
    (h : 1 < (filterCerts files.certItems).1.length) :
    (build_tls_server_config env files).1 =
      .error "Multiple certificates provided in cert file" := by
  unfold build_tls_server_config certCountCheck
  simp [h]

lemma build_tls_err_no_key (env : RustlsEnv) (files : TlsFiles)
    (hc : ¬ 1 < (filterCerts files.certItems).1.length)
    (hk : (filterKeys files.keyItems).1 = []) :
    (build_tls_server_config env files).1 = .error "No key provided in key file" := by
  unfold build_tls_server_config certCountCheck
  simp [hc, hk]

lemma build_tls_err_many_keys (env : RustlsEnv) (files : TlsFiles)
    (hc : ¬ 1 < (filterCerts files.certItems).1.length)
    (hk : 1 < (filterKeys files.keyItems).1.length) :
    (build_tls_server_config env files).1 =
      .error "Multiple keys provided in key file" := by
  have hne : (filterKeys files.keyItems).1.isEmpty = false := by
    cases hl : (filterKeys files.keyItems).1 with
    | nil => rw [hl] at hk; simp at hk
    | cons a t => simp
  unfold build_tls_server_config certCountCheck
  simp [hc, hne, hk]

lemma build_tls_ok_single (env : RustlsEnv) (files : TlsFiles) (c k k' : Nat)
    (hc : (filterCerts files.certItems).1 = [c])
    (hk : (filterKeys files.keyItems).1 = [k])
    (hparse : env.privateKeyFrom k = .ok k')
    (hverif : ∀ items, files.clientCaItems = some items →
      env.clientVerifierBuild (filterClientCaCerts items).1 = .ok ())
    (hsingle : env.withSingleCert [c] k' = .ok ()) :
    (build_tls_server_config env files).1 =
      .ok ⟨[c], k', files.clientCaItems.isSome⟩ := by
  unfold build_tls_server_config certCountCheck
  cases hca : files.clientCaItems with
  | none => simp [hc, hk, hparse, hca, hsingle]
  | some items =>
    have hv := hverif items hca
    simp [hc, hk, hparse, hca, hv, hsingle]

/-- C7: `build_tls_server_config` returns an error whenever the cert file
contains more than one parsable certificate or the key file contains more
than one key; with exactly one certificate and exactly one key — accepted
by the rustls conversions — it returns a `ServerConfig` built from that
pair, with a client-certificate verifier exactly when `client_ca_file` is
present. -/
theorem build_tls_server_config_single_cert_single_key (env : RustlsEnv)
    (files : TlsFiles) :
    (1 < (filterCerts files.certItems).1.length ∨
        1 < (filterKeys files.keyItems).1.length →
      ∃ e, (build_tls_server_config env files).1 = .error e) ∧
    (∀ c k k', (filterCerts files.certItems).1 = [c] →
      (filterKeys files.keyItems).1 = [k] →
      env.privateKeyFrom k = .ok k' →
      (∀ items, files.clientCaItems = some items →
        env.clientVerifierBuild (filterClientCaCerts items).1 = .ok ()) →
      env.withSingleCert [c] k' = .ok () →
      (build_tls_server_config env files).1 =
        .ok ⟨[c], k', files.clientCaItems.isSome⟩) := by
  constructor
  · intro h
    by_cases hc : 1 < (filterCerts files.certItems).1.length
    · exact ⟨_, build_tls_err_many_certs env files hc⟩
    · have hk : 1 < (filterKeys files.keyItems).1.length := by tauto
      exact ⟨_, build_tls_err_many_keys env files hc hk⟩
  · intro c k k' hc hk hp hv hs
    exact build_tls_ok_single env files c k k' hc hk hp hv hs

/-- Witness for C7: one parsable certificate and one PKCS8 key produce the
`ServerConfig` holding exactly that pair, without a client verifier. -/
theorem build_tls_server_config_single_cert_single_key_witness :
    (build_tls_server_config
      ⟨fun d => Except.ok d, fun _ => Except.ok (), fun _ _ => Except.ok (),
        fun l => (l.length, 0)⟩
      ⟨[Except.ok 5], [Except.ok (Item.pkcs8Key 9)], none⟩).1 =
      Except.ok ⟨[5], 9, false⟩ :=
  (build_tls_server_config_single_cert_single_key _ _).2 5 9 9 rfl rfl rfl
    (fun _ h => Option.noConfusion h) rfl

/-- C10: zero/many asymmetry of `build_tls_server_config`: a key file with
zero parsable keys yields the deterministic error
"No key provided in key file" (once the certificate-count check passed),
the certificate-count check accepts zero certificates and rejects only more
than one, and unparsable certificate entries are skipped with a warning
rather than causing an error. -/
theorem build_tls_server_config_zero_many_asymmetry :
    (∀ env files, (filterKeys files.keyItems).1 = [] →
      (filterCerts files.certItems).1.length ≤ 1 →
      (build_tls_server_config env files).1 =
        .error "No key provided in key file") ∧
    (∀ cert : List Nat, certCountCheck cert = .ok () ↔ cert.length ≤ 1) ∧
    (∀ l : List (Except String Nat),
      filterCerts l =
        (l.filterMap fun i =>
          match i with
          | .ok c => some c
          | .error _ => none,
         l.filterMap fun i =>
           match i with
           | .error e => some (LogEntry.warnCannotParseCert e)
           | .ok _ => none)) := by
  refine ⟨?_, ?_, ?_⟩
  · intro env files hk hc
    exact build_tls_err_no_key env files (by omega) hk
  · intro cert
    constructor
    · intro hok
      by_contra hgt
      have h1 : 1 < cert.length := by omega
      unfold certCountCheck at hok
      rw [if_pos h1] at hok
      exact Except.noConfusion hok
    · intro hle
      unfold certCountCheck
      rw [if_neg (by omega)]
  · intro l
    induction l with
    | nil => rfl
    | cons hd tl ih => cases hd <;> simp [filterCerts, ih]

/-- Witness for C10: an empty cert file and an empty key file reach the
key-count check and fail there, not at the certificate-count check. -/
theorem build_tls_server_config_zero_many_asymmetry_witness :
    (build_tls_server_config
      ⟨fun d => Except.ok d, fun _ => Except.ok (), fun _ _ => Except.ok (),
        fun l => (l.length, 0)⟩
      ⟨[], [], none⟩).1 = Except.error "No key provided in key file" :=
  build_tls_server_config_zero_many_asymmetry.1 _ _ rfl (by decide)

/-! Lemmas about the TLS watcher task. -/

lemma applyEventFlags_rebuilds (hcw : Bool) (s : WatcherState) (wd : WatchId) :
    (applyEventFlags hcw s wd).rebuilds = s.rebuilds := by
  cases wd
  case cert => rfl
  case key => rfl
  case clientCa => cases hcw <;> rfl

lemma applyEventFlags_active (hcw : Bool) (s : WatcherState) (wd : WatchId) :
    (applyEventFlags hcw s wd).active = s.active := by
  cases wd
  case cert => rfl
  case key => rfl
  case clientCa => cases hcw <;> rfl

/-- C1: for file-change events processed by the TLS watcher task, a rebuild
is triggered exactly when — after recording the event in its dirty flag —
either both the cert-file and key-file dirty flags are set, or the
client-CA dirty flag is set and the cert-file and key-file dirty flags are
equal to each other; after a triggered rebuild all three dirty flags are
clear. A stream error never triggers a rebuild, and a non-triggering event
changes nothing but its dirty flag. -/
theorem tls_watcher_rebuild_trigger (env : WatchEnv) (hcw : Bool)
    (s : WatcherState) :
    (∀ e, (watchStep env hcw s (.evtError e)).rebuilds = s.rebuilds) ∧
    (∀ wd,
      ((watchStep env hcw s (.evt wd)).rebuilds = s.rebuilds + 1 ↔
        reloadCondition (applyEventFlags hcw s wd).cert_changed
          (applyEventFlags hcw s wd).key_changed
          (applyEventFlags hcw s wd).client_cert_changed = true) ∧
      (reloadCondition (applyEventFlags hcw s wd).cert_changed
          (applyEventFlags hcw s wd).key_changed
          (applyEventFlags hcw s wd).client_cert_changed = true →
        (watchStep env hcw s (.evt wd)).cert_changed = false ∧
        (watchStep env hcw s (.evt wd)).key_changed = false ∧
        (watchStep env hcw s (.evt wd)).client_cert_changed = false) ∧
      (reloadCondition (applyEventFlags hcw s wd).cert_changed
          (applyEventFlags hcw s wd).key_changed
          (applyEventFlags hcw s wd).client_cert_changed = false →
        watchStep env hcw s (.evt wd) = applyEventFlags hcw s wd)) := by
  refine ⟨fun e => rfl, fun wd => ?_⟩
  have hreb := applyEventFlags_rebuilds hcw s wd
  cases hcond : reloadCondition (applyEventFlags hcw s wd).cert_changed
      (applyEventFlags hcw s wd).key_changed
      (applyEventFlags hcw s wd).client_cert_changed
  · have hstep : watchStep env hcw s (.evt wd) = applyEventFlags hcw s wd := by
      simp only [watchStep]
      rw [if_neg (by simp [hcond])]
    refine ⟨⟨fun hr => ?_, fun hc => Bool.noConfusion hc⟩,
      fun hc => Bool.noConfusion hc, fun _ => hstep⟩
    rw [hstep, hreb] at hr
    exact absurd hr (by omega)
  · refine ⟨⟨fun _ => rfl, fun _ => ?_⟩, fun _ => ?_, fun hfalse => ?_⟩
    · simp only [watchStep]
      rw [if_pos hcond]
      cases hb : env.buildAt (applyEventFlags hcw s wd).rebuilds <;> simp [hreb]
    · simp only [watchStep]
      rw [if_pos hcond]
      cases hb : env.buildAt (applyEventFlags hcw s wd).rebuilds <;>
        exact ⟨rfl, rfl, rfl⟩
    · exact Bool.noConfusion hfalse

/-- Witness for C1: from a clean state, a key event after a cert event
triggers a rebuild and clears all three dirty flags. -/
theorem tls_watcher_rebuild_trigger_witness :
    (watchStep ⟨fun _ => Except.ok ⟨[1], 2, false⟩⟩ false
      { cert_changed := true, key_changed := false, client_cert_changed := false,
        active := ⟨[0], 0, false⟩, rebuilds := 0, log := [] }
      (.evt .key)).cert_changed = false ∧
    (watchStep ⟨fun _ => Except.ok ⟨[1], 2, false⟩⟩ false
      { cert_changed := true, key_changed := false, client_cert_changed := false,
        active := ⟨[0], 0, false⟩, rebuilds := 0, log := [] }
      (.evt .key)).key_changed = false ∧
    (watchStep ⟨fun _ => Except.ok ⟨[1], 2, false⟩⟩ false
      { cert_changed := true, key_changed := false, client_cert_changed := false,
        active := ⟨[0], 0, false⟩, rebuilds := 0, log := [] }
      (.evt .key)).client_cert_changed = false :=
  ((tls_watcher_rebuild_trigger _ false _).2 .key).2.1 (by decide)

/-- C6: if a triggered rebuild fails to build a new TLS server config, the
active TLS context is unchanged and an error is logged; the active context
only ever changes to a successfully built new config. -/
theorem tls_watcher_reload_failure_keeps_context (env : WatchEnv) (hcw : Bool)
    (s : WatcherState) :
    (∀ ev, (watchStep env hcw s ev).active ≠ s.active →
      ∃ cfg, env.buildAt s.rebuilds = .ok cfg ∧
        (watchStep env hcw s ev).active = cfg) ∧
    (∀ wd e,
      reloadCondition (applyEventFlags hcw s wd).cert_changed
        (applyEventFlags hcw s wd).key_changed
        (applyEventFlags hcw s wd).client_cert_changed = true →
      env.buildAt s.rebuilds = .error e →
      (watchStep env hcw s (.evt wd)).active = s.active ∧
      LogEntry.errorFailedToReloadCertificate e ∈
        (watchStep env hcw s (.evt wd)).log) := by
  constructor
  · intro ev hne
    cases ev with
    | evtError e => exact absurd rfl hne
    | evt wd =>
      have hreb := applyEventFlags_rebuilds hcw s wd
      cases hcond : reloadCondition (applyEventFlags hcw s wd).cert_changed
          (applyEventFlags hcw s wd).key_changed
          (applyEventFlags hcw s wd).client_cert_changed
      · have hstep : watchStep env hcw s (.evt wd) = applyEventFlags hcw s wd := by
          simp only [watchStep]
          rw [if_neg (by simp [hcond])]
        rw [hstep, applyEventFlags_active] at hne
        exact absurd rfl hne
      · cases hb : env.buildAt (applyEventFlags hcw s wd).rebuilds with
        | error e =>
          have hstep : (watchStep env hcw s (.evt wd)).active = s.active := by
            simp only [watchStep]
            rw [if_pos hcond, hb]
            exact applyEventFlags_active hcw s wd
          rw [hstep] at hne
          exact absurd rfl hne
        | ok cfg =>
          rw [hreb] at hb
          refine ⟨cfg, hb, ?_⟩
          simp only [watchStep]
          rw [if_pos hcond, hreb, hb]
  · intro wd e hcond hb
    have hreb := applyEventFlags_rebuilds hcw s wd
    rw [← hreb] at hb
    constructor
    · simp only [watchStep]
      rw [if_pos hcond, hb]
      exact applyEventFlags_active hcw s wd
    · simp only [watchStep]
      rw [if_pos hcond, hb]
      exact List.mem_cons_self _ _

/-- Witness for C6: a rebuild triggered by a key event after a cert event
fails to build, the active context is retained and the error is logged. -/
theorem tls_watcher_reload_failure_keeps_context_witness :
    (watchStep ⟨fun _ => Except.error "bad pem"⟩ false
      { cert_changed := true, key_changed := false, client_cert_changed := false,
        active := ⟨[0], 0, false⟩, rebuilds := 0, log := [] }
      (.evt .key)).active = ⟨[0], 0, false⟩ ∧
    LogEntry.errorFailedToReloadCertificate "bad pem" ∈
      (watchStep ⟨fun _ => Except.error "bad pem"⟩ false
        { cert_changed := true, key_changed := false, client_cert_changed := false,
          active := ⟨[0], 0, false⟩, rebuilds := 0, log := [] }
        (.evt .key)).log :=
  (tls_watcher_reload_failure_keeps_context _ false _).2 .key "bad pem"
    (by decide) rfl

/-- C5: `precompile_policies` returns a map with exactly the URL keys of its
input; a URL whose fetch failed maps to an error with the same message; a
URL whose fetch succeeded maps to the result of compiling its artifact; and
the result is permutation-invariant in the input, so the map collected from
the parallel iteration does not depend on iteration order. -/
theorem precompile_policies_pointwise (compile : Nat → Except String Nat)
    (fetched : FetchedPolicies) :
    (precompile_policies compile fetched).map Prod.fst = fetched.map Prod.fst ∧
    (∀ url e, (url, Except.error e) ∈ fetched →
      (url, (Except.error e : Except String Nat)) ∈
        precompile_policies compile fetched) ∧
    (∀ url a, (url, Except.ok a) ∈ fetched →
      (url, compile a) ∈ precompile_policies compile fetched) ∧
    (∀ fetched' : FetchedPolicies, fetched.Perm fetched' →
      (precompile_policies compile fetched).Perm
        (precompile_policies compile fetched')) := by
  refine ⟨?_, ?_, ?_, fun fetched' hperm => hperm.map _⟩
  · induction fetched with
    | nil => rfl
    | cons hd tl ih =>
      obtain ⟨url, r⟩ := hd
      cases r <;> simp [precompile_policies] at ih ⊢ <;> exact ih
  · intro url e hmem
    induction fetched with
    | nil => cases hmem
    | cons hd tl ih =>
      cases hmem with
      | head => exact List.mem_cons_self _ _
      | tail _ h => exact List.mem_cons_of_mem _ (ih h)
  · intro url a hmem
    induction fetched with
    | nil => cases hmem
    | cons hd tl ih =>
      cases hmem with
      | head => exact List.mem_cons_self _ _
      | tail _ h => exact List.mem_cons_of_mem _ (ih h)

/-- Witness for C5: a failed fetch keeps its message, a successful fetch is
compiled. -/
theorem precompile_policies_pointwise_witness :
    ("registry://a", (Except.error "pull failed" : Except String Nat)) ∈
      precompile_policies (fun n => Except.ok (n + 1))
        [("registry://a", Except.error "pull failed"),
         ("registry://b", Except.ok 3)] :=
  (precompile_policies_pointwise _ _).2.1 "registry://a" "pull failed" (by simp)

/-! Lemmas about the boot pipeline. -/

lemma fst_eq_pair {α β : Type} {p : α × β} {a : α} (h : p.1 = a) : p = (a, p.2) := by
  obtain ⟨x, y⟩ := p
  dsimp at h ⊢
  rw [h]

lemma bootFinish_ok {env : BootEnv} {cfg : Config} {tr : Option TrustRoot}
    {kw ei ts : Bool} {pc : PrecompiledPolicies} {te : Bool}
    {log log' : List LogEntry} {s : PolicyServerModel}
    (h : bootFinish env cfg tr kw ei ts pc te log = (.ok s, log')) :
    s.sigstore_trust_root = tr ∧ s.kube_client_wired = kw ∧
      s.epoch_interruption = ei ∧ s.ticker_spawned = ts ∧
      s.precompiled_policies = pc ∧ s.semaphore_capacity = cfg.pool_size ∧
      s.tls_enabled = te ∧ s.pprof_routes = cfg.enable_pprof := by
  unfold bootFinish at h
  split at h
  next hp =>
    split at h
    next => simp at h
    next =>
      simp only [Prod.mk.injEq, Outcome.ok.injEq] at h
      obtain ⟨h1, -⟩ := h
      subst h1
      exact ⟨rfl, rfl, rfl, rfl, rfl, rfl, rfl, hp.symm⟩
  next hp =>
    have hp' : cfg.enable_pprof = false := by
      cases hb : cfg.enable_pprof
      · rfl
      · exact absurd hb hp
    simp only [Prod.mk.injEq, Outcome.ok.injEq] at h
    obtain ⟨h1, -⟩ := h
    subst h1
    exact ⟨rfl, rfl, rfl, rfl, rfl, rfl, rfl, hp'.symm⟩

lemma bootTls_ok {env : BootEnv} {cfg : Config} {tr : Option TrustRoot}
    {kw ei ts : Bool} {pc : PrecompiledPolicies} {log log' : List LogEntry}
    {s : PolicyServerModel}
    (h : bootTls env cfg tr kw ei ts pc log = (.ok s, log')) :
    s.sigstore_trust_root = tr ∧ s.kube_client_wired = kw ∧
      s.epoch_interruption = ei ∧ s.ticker_spawned = ts ∧
      s.precompiled_policies = pc ∧ s.semaphore_capacity = cfg.pool_size ∧
      s.tls_enabled = cfg.tls_config.isSome ∧ s.pprof_routes = cfg.enable_pprof := by
  unfold bootTls at h
  split at h
  next tc htc =>
    split at h
    next => simp at h
    next =>
      have hf := bootFinish_ok h
      rw [htc]
      simpa using hf
  next htc =>
    have hf := bootFinish_ok h
    rw [htc]
    simpa using hf

lemma bootAfterPrecompile_ok {env : BootEnv} {cfg : Config} {tr : Option TrustRoot}
    {kw ei : Bool} {pc : PrecompiledPolicies} {log log' : List LogEntry}
    {s : PolicyServerModel}
    (h : bootAfterPrecompile env cfg tr kw ei pc log = (.ok s, log')) :
    s.sigstore_trust_root = tr ∧ s.kube_client_wired = kw ∧
      s.epoch_interruption = ei ∧
      s.ticker_spawned = cfg.policy_evaluation_limit_seconds.isSome ∧
      s.precompiled_policies = pc ∧ s.semaphore_capacity = cfg.pool_size ∧
      s.tls_enabled = cfg.tls_config.isSome ∧ s.pprof_routes = cfg.enable_pprof := by
  unfold bootAfterPrecompile at h
  split at h
  next => simp at h
  next =>
    split at h
    next limit hlim =>
      have hf := bootTls_ok h
      rw [hlim]
      simpa using hf
    next hlim =>
      have hf := bootTls_ok h
      rw [hlim]
      simpa using hf

lemma bootAfterKube_ok {env : BootEnv} {cfg : Config} {tr : Option TrustRoot}
    {kw : Bool} {log log' : List LogEntry} {s : PolicyServerModel}
    (h : bootAfterKube env cfg tr kw log = (.ok s, log')) :
    s.sigstore_trust_root = tr ∧ s.kube_client_wired = kw ∧
      s.epoch_interruption = cfg.policy_evaluation_limit_seconds.isSome ∧
      s.ticker_spawned = cfg.policy_evaluation_limit_seconds.isSome ∧
      s.precompiled_policies = precompile_policies env.compile env.fetched ∧
      s.semaphore_capacity = cfg.pool_size ∧
      s.tls_enabled = cfg.tls_config.isSome ∧ s.pprof_routes = cfg.enable_pprof := by
  unfold bootAfterKube at h
  split at h
  next => simp at h
  next =>
    split at h
    next => simp at h
    next =>
      split at h
      next => simp at h
      next =>
        split at h
        next => exact bootAfterPrecompile_ok h
        next =>
          split at h
          next => simp at h
          next => exact bootAfterPrecompile_ok h

lemma bootAfterTrust_ok {env : BootEnv} {cfg : Config} {tr : Option TrustRoot}
    {log log' : List LogEntry} {s : PolicyServerModel}
    (h : bootAfterTrust env cfg tr log = (.ok s, log')) :
    s.sigstore_trust_root = tr ∧
      s.epoch_interruption = cfg.policy_evaluation_limit_seconds.isSome ∧
      s.ticker_spawned = cfg.policy_evaluation_limit_seconds.isSome ∧
      s.precompiled_policies = precompile_policies env.compile env.fetched ∧
      s.semaphore_capacity = cfg.pool_size ∧
      s.tls_enabled = cfg.tls_config.isSome ∧ s.pprof_routes = cfg.enable_pprof := by
  unfold bootAfterTrust at h
  split at h
  next =>
    obtain ⟨h1, -, h3, h4, h5, h6, h7, h8⟩ := bootAfterKube_ok h
    exact ⟨h1, h3, h4, h5, h6, h7, h8⟩
  next =>
    split at h
    next =>
      obtain ⟨h1, -, h3, h4, h5, h6, h7, h8⟩ := bootAfterKube_ok h
      exact ⟨h1, h3, h4, h5, h6, h7, h8⟩
    next => simp at h

lemma new_from_config_ok {env : BootEnv} {cfg : Config}
    {log' : List LogEntry} {s : PolicyServerModel}
    (h : new_from_config env cfg = (.ok s, log')) :
    s.epoch_interruption = cfg.policy_evaluation_limit_seconds.isSome ∧
      s.ticker_spawned = cfg.policy_evaluation_limit_seconds.isSome ∧
      s.precompiled_policies = precompile_policies env.compile env.fetched ∧
      s.semaphore_capacity = cfg.pool_size ∧
      s.tls_enabled = cfg.tls_config.isSome ∧ s.pprof_routes = cfg.enable_pprof := by
  unfold new_from_config at h
  split at h
  next => simp at h
  next =>
    obtain ⟨-, h2, h3, h4, h5, h6, h7⟩ := bootAfterTrust_ok h
    exact ⟨h2, h3, h4, h5, h6, h7⟩
  next =>
    obtain ⟨-, h2, h3, h4, h5, h6, h7⟩ := bootAfterTrust_ok h
    exact ⟨h2, h3, h4, h5, h6, h7⟩

lemma bootFinish_no_panic (env : BootEnv) (cfg : Config) (tr : Option TrustRoot)
    (kw ei ts : Bool) (pc : PrecompiledPolicies) (te : Bool)
    (log : List LogEntry) (m : String) :
    (bootFinish env cfg tr kw ei ts pc te log).1 ≠ .panicked m := by
  unfold bootFinish
  split
  · split <;> simp
  · simp

lemma bootTls_no_panic (env : BootEnv) (cfg : Config) (tr : Option TrustRoot)
    (kw ei ts : Bool) (pc : PrecompiledPolicies) (log : List LogEntry)
    (m : String) :
    (bootTls env cfg tr kw ei ts pc log).1 ≠ .panicked m := by
  unfold bootTls
  split
  · split
    · simp
    · apply bootFinish_no_panic
  · apply bootFinish_no_panic

lemma bootAfterPrecompile_no_panic (env : BootEnv) (cfg : Config)
    (tr : Option TrustRoot) (kw ei : Bool) (pc : PrecompiledPolicies)
    (log : List LogEntry) (m : String) :
    (bootAfterPrecompile env cfg tr kw ei pc log).1 ≠ .panicked m := by
  unfold bootAfterPrecompile
  split
  · simp
  · split <;> apply bootTls_no_panic

lemma bootAfterKube_no_panic (env : BootEnv) (cfg : Config)
    (tr : Option TrustRoot) (kw : Bool) (log : List LogEntry) (m : String) :
    (bootAfterKube env cfg tr kw log).1 ≠ .panicked m := by
  unfold bootAfterKube
  split
  · simp
  · split
    · simp
    · split
      · simp
      · split
        · apply bootAfterPrecompile_no_panic
        · split
          · simp
          · apply bootAfterPrecompile_no_panic

lemma bootAfterTrust_no_panic (env : BootEnv) (cfg : Config)
    (tr : Option TrustRoot) (log : List LogEntry) (m : String) :
    (bootAfterTrust env cfg tr log).1 ≠ .panicked m := by
  unfold bootAfterTrust
  split
  · apply bootAfterKube_no_panic
  · split
    · apply bootAfterKube_no_panic
    · simp

lemma bootFinish_log (env : BootEnv) (cfg : Config) (tr : Option TrustRoot)
    (kw ei ts : Bool) (pc : PrecompiledPolicies) (te : Bool)
    (log : List LogEntry) :
    (bootFinish env cfg tr kw ei ts pc te log).2 = log := by
  unfold bootFinish
  split
  · split <;> rfl
  · rfl

lemma bootTls_log (env : BootEnv) (cfg : Config) (tr : Option TrustRoot)
    (kw ei ts : Bool) (pc : PrecompiledPolicies) (log : List LogEntry) :
    (bootTls env cfg tr kw ei ts pc log).2 = log := by
  unfold bootTls
  split
  · split
    · rfl
    · exact bootFinish_log ..
  · exact bootFinish_log ..

lemma bootAfterPrecompile_log_mono (env : BootEnv) (cfg : Config)
    (tr : Option TrustRoot) (kw ei : Bool) (pc : PrecompiledPolicies)
    (log : List LogEntry) :
    log <+: (bootAfterPrecompile env cfg tr kw ei pc log).2 := by
  unfold bootAfterPrecompile
  split
  · exact List.prefix_refl _
  · split <;> rw [bootTls_log] <;> exact List.prefix_append _ _

lemma bootAfterKube_log_mono (env : BootEnv) (cfg : Config)
    (tr : Option TrustRoot) (kw : Bool) (log : List LogEntry) :
    log <+: (bootAfterKube env cfg tr kw log).2 := by
  unfold bootAfterKube
  split
  · exact List.prefix_refl _
  · split
    · exact List.prefix_refl _
    · split
      · exact List.prefix_refl _
      · split
        · exact bootAfterPrecompile_log_mono ..
        · split
          · exact List.prefix_refl _
          · exact bootAfterPrecompile_log_mono ..

lemma bootAfterTrust_log_mono (env : BootEnv) (cfg : Config)
    (tr : Option TrustRoot) (log : List LogEntry) :
    log <+: (bootAfterTrust env cfg tr log).2 := by
  unfold bootAfterTrust
  split
  · exact bootAfterKube_log_mono ..
  · split
    · exact List.IsPrefix.trans
        (List.IsPrefix.trans (List.prefix_append _ _) (List.prefix_append _ _))
        (bootAfterKube_log_mono ..)
    · exact List.prefix_append _ _

lemma bootFinish_exists (env : BootEnv) (cfg : Config) (tr : Option TrustRoot)
    (kw ei ts : Bool) (pc : PrecompiledPolicies) (te : Bool)
    (log : List LogEntry)
    (hp : cfg.enable_pprof = true → env.pprofActivate = .ok ()) :
    ∃ log', bootFinish env cfg tr kw ei ts pc te log =
      (.ok
        { sigstore_trust_root := tr
          kube_client_wired := kw
          epoch_interruption := ei
          ticker_spawned := ts
          precompiled_policies := pc
          semaphore_capacity := cfg.pool_size
          tls_enabled := te
          pprof_routes := cfg.enable_pprof }, log') := by
  cases hb : cfg.enable_pprof with
  | false =>
    refine ⟨log, ?_⟩
    unfold bootFinish
    rw [hb]
    rfl
  | true =>
    refine ⟨log, ?_⟩
    unfold bootFinish
    rw [hb, hp hb]
    rfl

lemma bootTls_exists (env : BootEnv) (cfg : Config) (tr : Option TrustRoot)
    (kw ei ts : Bool) (pc : PrecompiledPolicies) (log : List LogEntry)
    (htls : cfg.tls_config.isSome = true → env.tlsSetup = .ok ())
    (hp : cfg.enable_pprof = true → env.pprofActivate = .ok ()) :
    ∃ log', bootTls env cfg tr kw ei ts pc log =
      (.ok
        { sigstore_trust_root := tr
          kube_client_wired := kw
          epoch_interruption := ei
          ticker_spawned := ts
          precompiled_policies := pc
          semaphore_capacity := cfg.pool_size
          tls_enabled := cfg.tls_config.isSome
          pprof_routes := cfg.enable_pprof }, log') := by
  cases htc : cfg.tls_config with
  | none =>
    unfold bootTls
    rw [htc]
    simpa using bootFinish_exists env cfg tr kw ei ts pc false log hp
  | some tc =>
    unfold bootTls
    rw [htc, htls (by rw [htc]; rfl)]
    simpa using bootFinish_exists env cfg tr kw ei ts pc true log hp

lemma bootAfterPrecompile_exists (env : BootEnv) (cfg : Config)
    (tr : Option TrustRoot) (kw ei : Bool) (pc : PrecompiledPolicies)
    (log : List LogEntry)
    (heval : env.evalEnvBuild = .ok ())
    (htls : cfg.tls_config.isSome = true → env.tlsSetup = .ok ())
    (hp : cfg.enable_pprof = true → env.pprofActivate = .ok ()) :
    ∃ log', bootAfterPrecompile env cfg tr kw ei pc log =
      (.ok
        { sigstore_trust_root := tr
          kube_client_wired := kw
          epoch_interruption := ei
          ticker_spawned := cfg.policy_evaluation_limit_seconds.isSome
          precompiled_policies := pc
          semaphore_capacity := cfg.pool_size
          tls_enabled := cfg.tls_config.isSome
          pprof_routes := cfg.enable_pprof }, log') := by
  unfold bootAfterPrecompile
  rw [heval]
  cases hlim : cfg.policy_evaluation_limit_seconds with
  | some limit =>
    simpa using bootTls_exists env cfg tr kw ei true pc
      (log ++ [.infoTimeoutEnabled limit]) htls hp
  | none =>
    simpa using bootTls_exists env cfg tr kw ei false pc
      (log ++ [.infoTimeoutDisabled]) htls hp

lemma bootAfterKube_exists (env : BootEnv) (cfg : Config) (tr : Option TrustRoot)
    (kw : Bool) (log : List LogEntry)
    (hcb : env.callbackBuild = .ok ()) (hdl : env.downloaderNew = .ok ())
    (hen : env.engineNew = .ok ())
    (hcont : cfg.continue_on_errors = true ∨
      firstError (precompile_policies env.compile env.fetched) = none)
    (heval : env.evalEnvBuild = .ok ())
    (htls : cfg.tls_config.isSome = true → env.tlsSetup = .ok ())
    (hp : cfg.enable_pprof = true → env.pprofActivate = .ok ()) :
    ∃ log', bootAfterKube env cfg tr kw log =
      (.ok
        { sigstore_trust_root := tr
          kube_client_wired := kw
          epoch_interruption := cfg.policy_evaluation_limit_seconds.isSome
          ticker_spawned := cfg.policy_evaluation_limit_seconds.isSome
          precompiled_policies := precompile_policies env.compile env.fetched
          semaphore_capacity := cfg.pool_size
          tls_enabled := cfg.tls_config.isSome
          pprof_routes := cfg.enable_pprof }, log') := by
  unfold bootAfterKube
  rw [hcb, hdl, hen]
  cases hce : cfg.continue_on_errors with
  | true =>
    simp only [if_true]
    exact bootAfterPrecompile_exists env cfg tr kw _ _ log heval htls hp
  | false =>
    have hfe : firstError (precompile_policies env.compile env.fetched) = none := by
      rcases hcont with hc | hc
      · rw [hce] at hc
        cases hc
      · exact hc
    rw [if_neg (by simp)]
    rw [hfe]
    exact bootAfterPrecompile_exists env cfg tr kw _ _ log heval htls hp

lemma bootAfterKube_err_firstError (env : BootEnv) (cfg : Config)
    (tr : Option TrustRoot) (kw : Bool) (log : List LogEntry) (m : String)
    (hcb : env.callbackBuild = .ok ()) (hdl : env.downloaderNew = .ok ())
    (hen : env.engineNew = .ok ())
    (hcf : cfg.continue_on_errors = false)
    (hfe : firstError (precompile_policies env.compile env.fetched) = some m) :
    bootAfterKube env cfg tr kw log = (.err m, log) := by
  unfold bootAfterKube
  rw [hcb, hdl, hen, hcf]
  rw [if_neg (by simp)]
  rw [hfe]

lemma bootAfterTrust_err_kube (env : BootEnv) (cfg : Config)
    (tr : Option TrustRoot) (log : List LogEntry) (e : String)
    (hkc : env.kubeClient = .error e)
    (hig : cfg.ignore_kubernetes_connection_failure = false) :
    bootAfterTrust env cfg tr log =
      (.err "Cannot connect to Kubernetes, context aware policies would not work properly",
        log ++ [.eprintCannotConnectKube e]) := by
  unfold bootAfterTrust
  rw [hkc]
  simp [hig]

lemma bootAfterTrust_fst_err_firstError (env : BootEnv) (cfg : Config)
    (tr : Option TrustRoot) (log : List LogEntry) (m : String)
    (hkube : bootKubeOk env cfg)
    (hcb : env.callbackBuild = .ok ()) (hdl : env.downloaderNew = .ok ())
    (hen : env.engineNew = .ok ())
    (hcf : cfg.continue_on_errors = false)
    (hfe : firstError (precompile_policies env.compile env.fetched) = some m) :
    (bootAfterTrust env cfg tr log).1 = .err m := by
  unfold bootAfterTrust
  cases hk : env.kubeClient with
  | ok c =>
    simp [bootAfterKube_err_firstError env cfg tr true log m hcb hdl hen hcf hfe]
  | error e =>
    have hig : cfg.ignore_kubernetes_connection_failure = true := by
      rcases hkube with ⟨c, hc⟩ | hig
      · rw [hk] at hc
        cases hc
      · exact hig
    simp [hig, bootAfterKube_err_firstError env cfg tr false
      (log ++ [.eprintCannotConnectKube e, .eprintContextAwareUnavailable])
      m hcb hdl hen hcf hfe]

lemma new_from_config_fst_err_firstError (env : BootEnv) (cfg : Config) (m : String)
    (hnp : ∀ m', create_sigstore_trustroot env.trustRootEnv ≠ .panicked m')
    (hkube : bootKubeOk env cfg)
    (hcb : env.callbackBuild = .ok ()) (hdl : env.downloaderNew = .ok ())
    (hen : env.engineNew = .ok ())
    (hcf : cfg.continue_on_errors = false)
    (hfe : firstError (precompile_policies env.compile env.fetched) = some m) :
    (new_from_config env cfg).1 = .err m := by
  unfold new_from_config
  cases hroot : create_sigstore_trustroot env.trustRootEnv with
  | panicked m' => exact absurd hroot (hnp m')
  | err e =>
    exact bootAfterTrust_fst_err_firstError env cfg none _ m hkube hcb hdl hen hcf hfe
  | ok tr =>
    exact bootAfterTrust_fst_err_firstError env cfg (some tr) _ m hkube hcb hdl hen hcf hfe

lemma bootAfterTrust_exists_kube_ok (env : BootEnv) (cfg : Config)
    (tr : Option TrustRoot) (log : List LogEntry) (c : Nat)
    (hk : env.kubeClient = .ok c)
    (hcb : env.callbackBuild = .ok ()) (hdl : env.downloaderNew = .ok ())
    (hen : env.engineNew = .ok ())
    (hcont : cfg.continue_on_errors = true ∨
      firstError (precompile_policies env.compile env.fetched) = none)
    (heval : env.evalEnvBuild = .ok ())
    (htls : cfg.tls_config.isSome = true → env.tlsSetup = .ok ())
    (hp : cfg.enable_pprof = true → env.pprofActivate = .ok ()) :
    ∃ log', bootAfterTrust env cfg tr log =
      (.ok
        { sigstore_trust_root := tr
          kube_client_wired := true
          epoch_interruption := cfg.policy_evaluation_limit_seconds.isSome
          ticker_spawned := cfg.policy_evaluation_limit_seconds.isSome
          precompiled_policies := precompile_policies env.compile env.fetched
          semaphore_capacity := cfg.pool_size
          tls_enabled := cfg.tls_config.isSome
          pprof_routes := cfg.enable_pprof }, log') := by
  unfold bootAfterTrust
  rw [hk]
  exact bootAfterKube_exists env cfg tr true log hcb hdl hen hcont heval htls hp

lemma bootAfterTrust_exists_kube_ignored (env : BootEnv) (cfg : Config)
    (tr : Option TrustRoot) (log : List LogEntry) (e : String)
    (hk : env.kubeClient = .error e)
    (hig : cfg.ignore_kubernetes_connection_failure = true)
    (hcb : env.callbackBuild = .ok ()) (hdl : env.downloaderNew = .ok ())
    (hen : env.engineNew = .ok ())
    (hcont : cfg.continue_on_errors = true ∨
      firstError (precompile_policies env.compile env.fetched) = none)
    (heval : env.evalEnvBuild = .ok ())
    (htls : cfg.tls_config.isSome = true → env.tlsSetup = .ok ())
    (hp : cfg.enable_pprof = true → env.pprofActivate = .ok ()) :
    ∃ log', bootAfterTrust env cfg tr log =
      (.ok
        { sigstore_trust_root := tr
          kube_client_wired := false
          epoch_interruption := cfg.policy_evaluation_limit_seconds.isSome
          ticker_spawned := cfg.policy_evaluation_limit_seconds.isSome
          precompiled_policies := precompile_policies env.compile env.fetched
          semaphore_capacity := cfg.pool_size
          tls_enabled := cfg.tls_config.isSome
          pprof_routes := cfg.enable_pprof }, log') := by
  unfold bootAfterTrust
  rw [hk]
  simp only [hig, if_true]
  exact bootAfterKube_exists env cfg tr false
    (log ++ [.eprintCannotConnectKube e] ++ [.eprintContextAwareUnavailable])
    hcb hdl hen hcont heval htls hp

lemma bootAfterTrust_exists (env : BootEnv) (cfg : Config)
    (tr : Option TrustRoot) (log : List LogEntry)
    (hkube : bootKubeOk env cfg)
    (hpipe : bootPipelineOkAfterKube env cfg) :
    ∃ s log', bootAfterTrust env cfg tr log = (.ok s, log') ∧
      s.sigstore_trust_root = tr := by
  obtain ⟨hcb, hdl, hen, hcont, heval, htls, hp⟩ := hpipe
  cases hk : env.kubeClient with
  | ok c =>
    obtain ⟨log', h⟩ :=
      bootAfterTrust_exists_kube_ok env cfg tr log c hk hcb hdl hen hcont heval htls hp
    exact ⟨_, log', h, rfl⟩
  | error e =>
    have hig : cfg.ignore_kubernetes_connection_failure = true := by
      rcases hkube with ⟨c, hc⟩ | hig
      · rw [hk] at hc
        cases hc
      · exact hig
    obtain ⟨log', h⟩ :=
      bootAfterTrust_exists_kube_ignored env cfg tr log e hk hig hcb hdl hen hcont
        heval htls hp
    exact ⟨_, log', h, rfl⟩

lemma new_from_config_exists (env : BootEnv) (cfg : Config)
    (hnp : ∀ m, create_sigstore_trustroot env.trustRootEnv ≠ .panicked m)
    (hkube : bootKubeOk env cfg)
    (hpipe : bootPipelineOkAfterKube env cfg) :
    ∃ s log', new_from_config env cfg = (.ok s, log') := by
  unfold new_from_config
  cases hroot : create_sigstore_trustroot env.trustRootEnv with
  | panicked m => exact absurd hroot (hnp m)
  | err e =>
    obtain ⟨s, log', h, -⟩ := bootAfterTrust_exists env cfg none
      [.warnCannotCreateTrustRoot e] hkube hpipe
    exact ⟨s, log', h⟩
  | ok tr =>
    obtain ⟨s, log', h, -⟩ := bootAfterTrust_exists env cfg (some tr) [] hkube hpipe
    exact ⟨s, log', h⟩

lemma new_from_config_exists_trust_err (env : BootEnv) (cfg : Config) (e : String)
    (hroot : create_sigstore_trustroot env.trustRootEnv = .err e)
    (hkube : bootKubeOk env cfg)
    (hpipe : bootPipelineOkAfterKube env cfg) :
    ∃ s log', new_from_config env cfg = (.ok s, log') ∧
      s.sigstore_trust_root = none := by
  unfold new_from_config
  rw [hroot]
  obtain ⟨s, log', h, htr⟩ := bootAfterTrust_exists env cfg none
    [.warnCannotCreateTrustRoot e] hkube hpipe
  exact ⟨s, log', h, htr⟩

lemma new_from_config_exists_kube_ignored (env : BootEnv) (cfg : Config) (e : String)
    (hnp : ∀ m, create_sigstore_trustroot env.trustRootEnv ≠ .panicked m)
    (hk : env.kubeClient = .error e)
    (hig : cfg.ignore_kubernetes_connection_failure = true)
    (hpipe : bootPipelineOkAfterKube env cfg) :
    ∃ s log', new_from_config env cfg = (.ok s, log') ∧
      s.kube_client_wired = false := by
  obtain ⟨hcb, hdl, hen, hcont, heval, htls, hp⟩ := hpipe
  unfold new_from_config
  cases hroot : create_sigstore_trustroot env.trustRootEnv with
  | panicked m => exact absurd hroot (hnp m)
  | err e0 =>
    obtain ⟨log', h⟩ :=
      bootAfterTrust_exists_kube_ignored env cfg none [.warnCannotCreateTrustRoot e0]
        e hk hig hcb hdl hen hcont heval htls hp
    exact ⟨_, log', h, rfl⟩
  | ok tr =>
    obtain ⟨log', h⟩ :=
      bootAfterTrust_exists_kube_ignored env cfg (some tr) [] e hk hig hcb hdl hen
        hcont heval htls hp
    exact ⟨_, log', h, rfl⟩

lemma firstError_some_mem {l : PrecompiledPolicies} {m : String}
    (h : firstError l = some m) :
    ∃ url, (url, (Except.error m : Except String Nat)) ∈ l := by
  induction l with
  | nil => cases h
  | cons hd tl ih =>
    obtain ⟨url, r⟩ := hd
    cases r with
    | error e =>
      simp only [firstError, Option.some.injEq] at h
      subst h
      exact ⟨url, List.mem_cons_self _ _⟩
    | ok a =>
      obtain ⟨url', hmem⟩ := ih h
      exact ⟨url', List.mem_cons_of_mem _ hmem⟩

lemma firstError_isSome_of_mem {l : PrecompiledPolicies} {url : String} {e : String}
    (h : (url, (Except.error e : Except String Nat)) ∈ l) :
    ∃ m, firstError l = some m := by
  induction l with
  | nil => cases h
  | cons hd tl ih =>
    cases h with
    | head => exact ⟨e, rfl⟩
    | tail _ h' =>
      obtain ⟨url', r⟩ := hd
      cases r with
      | error e' => exact ⟨e', rfl⟩
      | ok a => exact ih h'

lemma main_serve_no_bind (env : BootEnv) (cfg : Config) (m : String)
    (h : (new_from_config env cfg).1 = .err m) :
    (main_serve env cfg).2.2 = [] := by
  unfold main_serve
  split
  next s log heq =>
    rw [heq] at h
    cases h
  next => rfl

lemma semStep_sum (cap : Nat) (s : SemState) (ev : SemEvent)
    (h : s.available + s.evaluating = cap) :
    (semStep s ev).available + (semStep s ev).evaluating = cap := by
  cases ev with
  | acquire =>
    by_cases ha : 0 < s.available
    · simp only [semStep, if_pos ha]
      omega
    · simp only [semStep, if_neg ha]
      exact h
  | release =>
    by_cases he : 0 < s.evaluating
    · simp only [semStep, if_pos he]
      omega
    · simp only [semStep, if_neg he]
      exact h

lemma semRun_sum (cap : Nat) (events : List SemEvent) :
    (semRun cap events).available + (semRun cap events).evaluating = cap := by
  suffices hgen : ∀ (l : List SemEvent) (s : SemState),
      s.available + s.evaluating = cap →
      (l.foldl semStep s).available + (l.foldl semStep s).evaluating = cap by
    exact hgen events (semInit cap) (by simp [semInit])
  intro l
  induction l with
  | nil => exact fun s h => h
  | cons ev rest ih =>
    intro s h
    exact ih (semStep s ev) (semStep_sum cap s ev h)

/-- C2: with `continue_on_errors = false`, any error in the
precompiled-policies map makes `PolicyServer::new_from_config` return an
error carrying that error's message, and `main` never reaches the
socket-binding `run`; with `continue_on_errors = true` construction
proceeds and the per-URL errors are kept in the precompiled-policies
map. -/
theorem new_from_config_continue_on_errors (env : BootEnv) (cfg : Config)
    (hnp : ∀ m, create_sigstore_trustroot env.trustRootEnv ≠ .panicked m)
    (hkube : bootKubeOk env cfg)
    (hcb : env.callbackBuild = .ok ()) (hdl : env.downloaderNew = .ok ())
    (hen : env.engineNew = .ok ()) :
    (cfg.continue_on_errors = false →
      ∀ url e, (url, (Except.error e : Except String Nat)) ∈
          precompile_policies env.compile env.fetched →
        ∃ m, (new_from_config env cfg).1 = .err m ∧
          (∃ url', (url', (Except.error m : Except String Nat)) ∈
            precompile_policies env.compile env.fetched) ∧
          (main_serve env cfg).2.2 = []) ∧
    (cfg.continue_on_errors = true →
      env.evalEnvBuild = .ok () →
      (cfg.tls_config.isSome = true → env.tlsSetup = .ok ()) →
      (cfg.enable_pprof = true → env.pprofActivate = .ok ()) →
      ∃ s, (new_from_config env cfg).1 = .ok s ∧
        s.precompiled_policies = precompile_policies env.compile env.fetched) := by
  constructor
  · intro hcf url e hmem
    obtain ⟨m, hfe⟩ := firstError_isSome_of_mem hmem
    have herr := new_from_config_fst_err_firstError env cfg m hnp hkube hcb hdl hen
      hcf hfe
    exact ⟨m, herr, firstError_some_mem hfe, main_serve_no_bind env cfg m herr⟩
  · intro hce heval htls hp
    obtain ⟨s, log', hpair⟩ := new_from_config_exists env cfg hnp hkube
      ⟨hcb, hdl, hen, Or.inl hce, heval, htls, hp⟩
    exact ⟨s, by rw [hpair], (new_from_config_ok hpair).2.2.1⟩

/-- Witness for C2: one failed fetch with `continue_on_errors = false`; boot
returns the fetch error and no listener is bound. -/
theorem new_from_config_continue_on_errors_witness :
    ∃ m, (new_from_config sampleBootEnvFetchErr sampleConfigStrict).1 = .err m ∧
      (∃ url', (url', (Except.error m : Except String Nat)) ∈
        precompile_policies sampleBootEnvFetchErr.compile
          sampleBootEnvFetchErr.fetched) ∧
      (main_serve sampleBootEnvFetchErr sampleConfigStrict).2.2 = [] :=
  (new_from_config_continue_on_errors sampleBootEnvFetchErr sampleConfigStrict
      (fun _ h => Outcome.noConfusion h) (Or.inl ⟨0, rfl⟩) rfl rfl rfl).1 rfl
    "registry://p" "pull failed"
    (by simp [sampleBootEnvFetchErr, sampleBootEnv, precompile_policies])

/-- Counterexample to C3 as stated: a trust-root failure that is fatal.
When the TUF repository initialises but its `fulcio_certs()` accessor
fails, the `.expect` in `create_sigstore_trustroot` panics and boot
aborts; it does not log a warning and continue with an absent trust
root. -/
theorem create_sigstore_trustroot_fatal_counterexample :
    (new_from_config
      { sampleBootEnv with trustRootEnv :=
          { cacheDirMissing := false
            createDirAll := .ok ()
            tufNew := .ok { fulcioCerts := .error "offline", rekorKeys := .ok [] } } }
      sampleConfig).1 =
      .panicked "Cannot fetch Fulcio certificates from TUF repository" ∧
    (new_from_config
      { sampleBootEnv with trustRootEnv :=
          { cacheDirMissing := false
            createDirAll := .ok ()
            tufNew := .ok { fulcioCerts := .error "offline", rekorKeys := .ok [] } } }
      sampleConfig).2 = [] :=
  ⟨rfl, rfl⟩

/-- C3 (amended): every failure that `create_sigstore_trustroot` returns as
an `Err` — cache-directory creation failure or TUF-repository
initialisation failure — is logged as a warning and construction continues
with an absent (`none`) trust root, never aborting because of it; failures
of the `fulcio_certs()`/`rekor_keys()` accessors, however, panic (see the
counterexample), so not every trust-root failure is non-fatal. -/
theorem new_from_config_trustroot_err_nonfatal (env : BootEnv) (cfg : Config)
    (e : String)
    (h : create_sigstore_trustroot env.trustRootEnv = .err e) :
    LogEntry.warnCannotCreateTrustRoot e ∈ (new_from_config env cfg).2 ∧
    (∀ m, (new_from_config env cfg).1 ≠ .panicked m) ∧
    (∀ s log', new_from_config env cfg = (.ok s, log') →
      s.sigstore_trust_root = none) ∧
    (bootKubeOk env cfg → bootPipelineOkAfterKube env cfg →
      ∃ s, (new_from_config env cfg).1 = .ok s ∧
        s.sigstore_trust_root = none) := by
  have hred : new_from_config env cfg =
      bootAfterTrust env cfg none [.warnCannotCreateTrustRoot e] := by
    unfold new_from_config
    rw [h]
  refine ⟨?_, ?_, ?_, ?_⟩
  · rw [hred]
    exact (bootAfterTrust_log_mono env cfg none
      [.warnCannotCreateTrustRoot e]).subset (List.mem_cons_self _ _)
  · intro m
    rw [hred]
    apply bootAfterTrust_no_panic
  · intro s log' hpair
    rw [hred] at hpair
    exact (bootAfterTrust_ok hpair).1
  · intro hkube hpipe
    obtain ⟨s, log', hpair, htr⟩ :=
      new_from_config_exists_trust_err env cfg e h hkube hpipe
    exact ⟨s, by rw [hpair], htr⟩

/-- Witness for C3 (amended): a TUF initialisation failure is logged as a
warning and boot continues. -/
theorem new_from_config_trustroot_err_nonfatal_witness :
    LogEntry.warnCannotCreateTrustRoot "network down" ∈
      (new_from_config
        { sampleBootEnv with trustRootEnv :=
            { cacheDirMissing := false
              createDirAll := .ok ()
              tufNew := .error "network down" } }
        sampleConfig).2 :=
  (new_from_config_trustroot_err_nonfatal
    { sampleBootEnv with trustRootEnv :=
        { cacheDirMissing := false
          createDirAll := .ok ()
          tufNew := .error "network down" } }
    sampleConfig "network down" rfl).1

/-- C4: the wasmtime engine is configured with epoch interruption and the
once-per-second epoch ticker task is spawned if and only if
`policy_evaluation_limit_seconds` is set; with no limit the engine epoch
never advances (the ticker is its only writer), so no evaluation is
deadline-interrupted. -/
theorem new_from_config_epoch_ticker (env : BootEnv) (cfg : Config)
    (s : PolicyServerModel) (h : (new_from_config env cfg).1 = .ok s) :
    (s.epoch_interruption = true ↔
      cfg.policy_evaluation_limit_seconds.isSome = true) ∧
    (s.ticker_spawned = true ↔
      cfg.policy_evaluation_limit_seconds.isSome = true) ∧
    (cfg.policy_evaluation_limit_seconds = none → ∀ t, engineEpoch s t = 0) := by
  have hfields := new_from_config_ok (fst_eq_pair h)
  refine ⟨by rw [hfields.1], by rw [hfields.2.1], fun hnone t => ?_⟩
  unfold engineEpoch
  rw [hfields.2.1, hnone]
  rfl

/-- Witness for C4: boot without an evaluation limit leaves the epoch at 0
after any number of seconds. -/
theorem new_from_config_epoch_ticker_witness :
    engineEpoch sampleServer 9 = 0 :=
  (new_from_config_epoch_ticker sampleBootEnv sampleConfig sampleServer rfl).2.2
    rfl 9

/-- C8: the `ApiServerState` semaphore is created with capacity
`config.pool_size` and — with the handler protocol modelled from the spec:
acquire one permit before entering an evaluation, release it on any exit,
wait when exhausted — the number of in-flight evaluations never exceeds
`pool_size`, for every sequence of acquire/release events. -/
theorem admission_concurrency_cap (env : BootEnv) (cfg : Config)
    (s : PolicyServerModel) (h : (new_from_config env cfg).1 = .ok s) :
    s.semaphore_capacity = cfg.pool_size ∧
    ∀ events, (semRun s.semaphore_capacity events).evaluating ≤ cfg.pool_size := by
  have hcap := (new_from_config_ok (fst_eq_pair h)).2.2.2.1
  refine ⟨hcap, fun events => ?_⟩
  have hsum := semRun_sum s.semaphore_capacity events
  omega

/-- Witness for C8: a burst of acquires on the booted server's semaphore
stays within the pool size. -/
theorem admission_concurrency_cap_witness :
    (semRun sampleServer.semaphore_capacity
      [SemEvent.acquire, SemEvent.acquire, SemEvent.release,
        SemEvent.acquire]).evaluating ≤ sampleConfig.pool_size :=
  (admission_concurrency_cap sampleBootEnv sampleConfig sampleServer rfl).2 _

/-- C9: when the kube client cannot be created at boot, `new_from_config`
returns an error if and only if `ignore_kubernetes_connection_failure` is
false; when the flag is true construction proceeds with no kube client
wired into the callback handler. -/
theorem new_from_config_kube_connection_failure (env : BootEnv) (cfg : Config)
    (e : String)
    (hnp : ∀ m, create_sigstore_trustroot env.trustRootEnv ≠ .panicked m)
    (hkc : env.kubeClient = .error e)
    (hpipe : bootPipelineOkAfterKube env cfg) :
    (cfg.ignore_kubernetes_connection_failure = false ↔
      (new_from_config env cfg).1 =
        .err "Cannot connect to Kubernetes, context aware policies would not work properly") ∧
    (cfg.ignore_kubernetes_connection_failure = true →
      ∃ s, (new_from_config env cfg).1 = .ok s ∧
        s.kube_client_wired = false) := by
  have herrcase : cfg.ignore_kubernetes_connection_failure = false →
      (new_from_config env cfg).1 =
        .err "Cannot connect to Kubernetes, context aware policies would not work properly" := by
    intro hig
    unfold new_from_config
    cases hroot : create_sigstore_trustroot env.trustRootEnv with
    | panicked m => exact absurd hroot (hnp m)
    | err e0 =>
      simp [bootAfterTrust_err_kube env cfg none
        [.warnCannotCreateTrustRoot e0] e hkc hig]
    | ok tr =>
      simp [bootAfterTrust_err_kube env cfg (some tr) [] e hkc hig]
  have hokcase : cfg.ignore_kubernetes_connection_failure = true →
      ∃ s, (new_from_config env cfg).1 = .ok s ∧ s.kube_client_wired = false := by
    intro hig
    obtain ⟨s, log', hpair, hkw⟩ :=
      new_from_config_exists_kube_ignored env cfg e hnp hkc hig hpipe
    exact ⟨s, by rw [hpair], hkw⟩
  refine ⟨⟨herrcase, ?_⟩, hokcase⟩
  intro herr
  cases hig : cfg.ignore_kubernetes_connection_failure with
  | false => rfl
  | true =>
    obtain ⟨s, hs, -⟩ := hokcase hig
    rw [hs] at herr
    cases herr

/-- Witness for C9: kube-client creation fails, the flag is set, boot
succeeds without a wired kube client. -/
theorem new_from_config_kube_connection_failure_witness :
    ∃ s, (new_from_config sampleBootEnvKubeErr sampleConfig).1 = .ok s ∧
      s.kube_client_wired = false :=
  (new_from_config_kube_connection_failure sampleBootEnvKubeErr sampleConfig
      "no cluster" (fun _ h => Outcome.noConfusion h) rfl
      ⟨rfl, rfl, rfl, Or.inl rfl, rfl, fun _ => rfl, fun _ => rfl⟩).2 rfl

end PolicyServerSpec
